import Mathlib

/-!
Verification of the Crypto-Trading-MCP risk server and decision engine.

We give a shallow embedding of the relevant Python code in Lean 4:
floating-point numbers are modelled by exact rationals (`ℚ`), Python's
`round(x, n)` by round-half-to-even on the scaled rational, fallible
functions by `Except`, and dictionaries by structures.  Every definition
is translated directly from the repository source
(`src/servers/crypto-risk-mcp/main.py`, `src/client/crypto_trader.py`,
`src/servers/crypto-ai-mcp/main.py`, `src/shared/constants.py`,
`src/shared/exceptions.py`).
-/

namespace CryptoMCP

/-! ### Constants (`src/shared/constants.py`, class `RiskManagement`) -/

def MAX_POSITION_SIZE : ℚ := 20 / 100
def MAX_PORTFOLIO_RISK : ℚ := 2 / 100
def MAX_DRAWDOWN : ℚ := 15 / 100
def STOP_LOSS_PERCENT : ℚ := 5 / 100
def MAX_CORRELATION : ℚ := 7 / 10
def HIGH_CORRELATION_THRESHOLD : ℚ := 8 / 10
def DEFAULT_WIN_RATE : ℚ := 60 / 100
def MAX_KELLY_FRACTION : ℚ := 25 / 100
def SIGNIFICANT_DAILY_LOSS : ℚ := 5000
def MODERATE_DAILY_LOSS : ℚ := 1000
def CRITICAL_DRAWDOWN_THRESHOLD : ℚ := 15 / 100
def WARNING_DRAWDOWN_THRESHOLD : ℚ := 10 / 100
def ELEVATED_DRAWDOWN_THRESHOLD : ℚ := 8 / 100
def VAR_BREACH_WARNING_THRESHOLD : ℤ := 2
def DEMO_ACCOUNT_BALANCE : ℚ := 100000

/-! ### Python `round` on rationals

Python's built-in `round(x, n)` rounds half to even.  We model it
exactly on `ℚ`. -/

def roundHalfEven (x : ℚ) : ℤ :=
  let f := ⌊x⌋
  let frac := x - (f : ℚ)
  if frac < 1 / 2 then f
  else if 1 / 2 < frac then f + 1
  else if f % 2 = 0 then f else f + 1

def pyRound (x : ℚ) (n : ℕ) : ℚ := (roundHalfEven (x * 10 ^ n) : ℚ) / 10 ^ n

theorem roundHalfEven_sub_le (x : ℚ) : (roundHalfEven x : ℚ) - x ≤ 1 / 2 := by
  unfold roundHalfEven
  have hfl : (⌊x⌋ : ℚ) ≤ x := Int.floor_le x
  have hfl2 : x - 1 < (⌊x⌋ : ℚ) := Int.sub_one_lt_floor x
  by_cases h1 : x - (⌊x⌋ : ℚ) < 1 / 2
  · simp only [h1, if_true]
    linarith
  · simp only [h1, if_false]
    by_cases h2 : 1 / 2 < x - (⌊x⌋ : ℚ)
    · simp only [h2, if_true]
      push_cast
      linarith
    · simp only [h2, if_false]
      by_cases h3 : ⌊x⌋ % 2 = 0
      · simp only [h3, if_true]
        linarith
      · simp only [h3, if_false]
        push_cast
        linarith

theorem le_roundHalfEven_sub (x : ℚ) : -(1 / 2) ≤ (roundHalfEven x : ℚ) - x := by
  unfold roundHalfEven
  have hfl : (⌊x⌋ : ℚ) ≤ x := Int.floor_le x
  have hfl2 : x - 1 < (⌊x⌋ : ℚ) := Int.sub_one_lt_floor x
  by_cases h1 : x - (⌊x⌋ : ℚ) < 1 / 2
  · simp only [h1, if_true]
    linarith
  · simp only [h1, if_false]
    by_cases h2 : 1 / 2 < x - (⌊x⌋ : ℚ)
    · simp only [h2, if_true]
      push_cast
      linarith
    · simp only [h2, if_false]
      by_cases h3 : ⌊x⌋ % 2 = 0
      · simp only [h3, if_true]
        linarith
      · simp only [h3, if_false]
        push_cast
        linarith

theorem pyRound_le (x : ℚ) (n : ℕ) : pyRound x n ≤ x + 1 / (2 * 10 ^ n) := by
  unfold pyRound
  have hpow : (0 : ℚ) < 10 ^ n := by positivity
  have h := roundHalfEven_sub_le (x * 10 ^ n)
  rw [div_le_iff₀ hpow]
  have : (x + 1 / (2 * 10 ^ n)) * 10 ^ n = x * 10 ^ n + 1 / 2 := by
    have h10 : (10 : ℚ) ^ n ≠ 0 := ne_of_gt hpow
    field_simp
    ring
  linarith

theorem le_pyRound (x : ℚ) (n : ℕ) : x - 1 / (2 * 10 ^ n) ≤ pyRound x n := by
  unfold pyRound
  have hpow : (0 : ℚ) < 10 ^ n := by positivity
  have h := le_roundHalfEven_sub (x * 10 ^ n)
  rw [le_div_iff₀ hpow]
  have : (x - 1 / (2 * 10 ^ n)) * 10 ^ n = x * 10 ^ n - 1 / 2 := by
    have h10 : (10 : ℚ) ^ n ≠ 0 := ne_of_gt hpow
    field_simp
    ring
  linarith

theorem abs_pyRound_sub_le (x : ℚ) (n : ℕ) : |pyRound x n - x| ≤ 1 / (2 * 10 ^ n) := by
  rw [abs_sub_le_iff]
  constructor
  · have := pyRound_le x n
    linarith
  · have := le_pyRound x n
    linarith

/-! ### Position sizing (`RiskCalculator.calculate_position_size`)

`PositionSize` mirrors the dataclass in `src/shared/shared_types.py`;
errors raised by the Python code become `Except.error`. -/

structure PositionSize where
  symbol : String
  quantity : ℚ
  notional_value : ℚ
  risk_amount : ℚ
  confidence : ℚ
  deriving Repr, DecidableEq

inductive RiskError where
  | validation (field : String)
  | positionSizing (message : String)
  deriving Repr, DecidableEq

instance instDecEqExcept {ε α : Type} [DecidableEq ε] [DecidableEq α] :
    DecidableEq (Except ε α) := fun a b =>
  match a, b with
  | .error e₁, .error e₂ =>
    if h : e₁ = e₂ then .isTrue (by rw [h])
    else .isFalse (fun hh => h (by injection hh))
  | .error _, .ok _ => .isFalse (fun hh => Except.noConfusion hh)
  | .ok _, .error _ => .isFalse (fun hh => Except.noConfusion hh)
  | .ok a₁, .ok a₂ =>
    if h : a₁ = a₂ then .isTrue (by rw [h])
    else .isFalse (fun hh => h (by injection hh))

def validMethods : List String := ["fixed_percent", "kelly", "volatility"]

/-- The method dispatch of `calculate_position_size` (main.py lines 127-160):
returns the uncapped `(quantity, confidence)` pair for the chosen method.
Python locals are inlined: in the `kelly` branch `win_rate =
DEFAULT_WIN_RATE`, `avg_win = price_risk * 2`, `avg_loss = price_risk`,
`kelly_fraction = (win_rate*avg_win - (1-win_rate)*avg_loss) / avg_win`
clamped to `[0, MAX_KELLY_FRACTION]`; in the `volatility` branch
`volatility_factor = 0.8` and `adjusted_risk = risk_amount *
(1 / volatility_factor)`. -/
def sizingMethodResult (account_balance risk_amount price_risk : ℚ)
    (method : String) : Except RiskError (ℚ × ℚ) :=
  if method = "fixed_percent" then
    .ok (risk_amount / price_risk, 8 / 10)
  else if method = "kelly" then
    if price_risk * 2 ≤ 0 then
      .error (.positionSizing "Invalid Kelly calculation: average win must be greater than zero")
    else
      .ok (account_balance *
          (max 0 (min ((DEFAULT_WIN_RATE * (price_risk * 2) -
              (1 - DEFAULT_WIN_RATE) * price_risk) / (price_risk * 2))
            MAX_KELLY_FRACTION)) / price_risk, 9 / 10)
  else if method = "volatility" then
    .ok (risk_amount * (1 / (8 / 10)) / price_risk, 7 / 10)
  else
    .ok (risk_amount / price_risk, 6 / 10)

/-- `RiskCalculator.calculate_position_size` (main.py lines 74-199):
input validation, price-risk check, method dispatch, position cap,
and final rounding (`round(quantity, 8)`, `round(notional_value, 2)`,
`round(risk_amount, 2)`).  Python locals are inlined:
`risk_amount = account_balance * risk_per_trade`,
`price_risk = abs(entry_price - stop_loss_price)`,
`notional_value = quantity * entry_price`,
`max_position_value = account_balance * MAX_POSITION_SIZE`. -/
def calculate_position_size (account_balance risk_per_trade entry_price
    stop_loss_price : ℚ) (method : String) : Except RiskError PositionSize :=
  if account_balance < 1 / 100 then .error (.validation "account_balance")
  else if risk_per_trade < 1 / 1000 then .error (.validation "risk_per_trade")
  else if risk_per_trade > 1 / 2 then .error (.validation "risk_per_trade")
  else if entry_price < 1 / 100 then .error (.validation "entry_price")
  else if stop_loss_price < 1 / 100 then .error (.validation "stop_loss_price")
  else if method ∉ validMethods then .error (.validation "method")
  else if |entry_price - stop_loss_price| ≤ 0 then
    .error (.positionSizing
      "Price risk must be greater than zero (entry price cannot equal stop loss price)")
  else
    match sizingMethodResult account_balance (account_balance * risk_per_trade)
        |entry_price - stop_loss_price| method with
    | .error e => .error e
    | .ok (quantity, confidence) =>
      if quantity * entry_price > account_balance * MAX_POSITION_SIZE then
        .ok { symbol := ""
              quantity := pyRound (account_balance * MAX_POSITION_SIZE / entry_price) 8
              notional_value := pyRound (account_balance * MAX_POSITION_SIZE) 2
              risk_amount := pyRound (account_balance * risk_per_trade) 2
              confidence := confidence * (8 / 10) }
      else
        .ok { symbol := ""
              quantity := pyRound quantity 8
              notional_value := pyRound (quantity * entry_price) 2
              risk_amount := pyRound (account_balance * risk_per_trade) 2
              confidence := confidence }

example :
    calculate_position_size 1000 (1 / 10) 100 90 "fixed_percent" =
      .ok { symbol := "", quantity := 2, notional_value := 200,
            risk_amount := 100, confidence := (8 / 10) * (8 / 10) } := by
  norm_num [calculate_position_size, sizingMethodResult, pyRound, roundHalfEven,
    validMethods, MAX_POSITION_SIZE, Int.floor_eq_iff]

/-- Structural case analysis: a successful `calculate_position_size` call is
either the capped or the uncapped branch applied to the method dispatch. -/
theorem calc_ok_cases (ab rpt ep sl : ℚ) (method : String) (ps : PositionSize)
    (h : calculate_position_size ab rpt ep sl method = .ok ps) :
    ∃ q c, sizingMethodResult ab (ab * rpt) |ep - sl| method = .ok (q, c) ∧
      0 < |ep - sl| ∧
      ((ab * MAX_POSITION_SIZE < q * ep ∧
         ps = ⟨"", pyRound (ab * MAX_POSITION_SIZE / ep) 8,
               pyRound (ab * MAX_POSITION_SIZE) 2, pyRound (ab * rpt) 2,
               c * (8 / 10)⟩) ∨
       (q * ep ≤ ab * MAX_POSITION_SIZE ∧
         ps = ⟨"", pyRound q 8, pyRound (q * ep) 2, pyRound (ab * rpt) 2, c⟩)) := by
  rw [calculate_position_size] at h
  split_ifs at h with h1 h2 h3 h4 h5 h6 h7
  split at h
  · exact Except.noConfusion h
  · next q c heq =>
      split_ifs at h with hc
      · exact ⟨q, c, heq, not_le.mp h7, Or.inl ⟨hc, (Except.ok.inj h).symm⟩⟩
      · exact ⟨q, c, heq, not_le.mp h7, Or.inr ⟨not_lt.mp hc, (Except.ok.inj h).symm⟩⟩

/-- The method dispatch only ever returns one of the four confidences
hard-coded in the source. -/
theorem sizingMethodResult_confidence (ab ra pr : ℚ) (method : String)
    (q c : ℚ) (h : sizingMethodResult ab ra pr method = .ok (q, c)) :
    c = 8 / 10 ∨ c = 9 / 10 ∨ c = 7 / 10 ∨ c = 6 / 10 := by
  rw [sizingMethodResult] at h
  split_ifs at h <;>
    first
      | exact Except.noConfusion h
      | · simp only [Except.ok.injEq, Prod.mk.injEq] at h
          tauto

/-- C1: for every successful call of `calculate_position_size` whose method
dispatch produced the uncapped pair `(q, c)`, the returned notional value
never exceeds `account_balance * MAX_POSITION_SIZE` beyond the half-cent
rounding tolerance, and whenever the uncapped notional `q * entry_price`
exceeds the cap, the quantity is rescaled to the cap and the returned
confidence equals `c * 0.8`, strictly less than `c`. -/
theorem position_size_cap_invariant (ab rpt ep sl : ℚ) (method : String)
    (ps : PositionSize) (q c : ℚ)
    (hok : calculate_position_size ab rpt ep sl method = .ok ps)
    (hdisp : sizingMethodResult ab (ab * rpt) |ep - sl| method = .ok (q, c)) :
    ps.notional_value ≤ ab * MAX_POSITION_SIZE + 1 / 200 ∧
    (ab * MAX_POSITION_SIZE < q * ep →
      ps.quantity = pyRound (ab * MAX_POSITION_SIZE / ep) 8 ∧
      ps.confidence = c * (8 / 10) ∧
      ps.confidence < c) := by
  obtain ⟨q', c', hsm, hpr, hcase⟩ := calc_ok_cases ab rpt ep sl method ps hok
  rw [hdisp] at hsm
  injection Except.ok.inj hsm with hq hc
  subst hq
  subst hc
  have hcpos : 0 < c := by
    rcases sizingMethodResult_confidence ab (ab * rpt) |ep - sl| method q c hdisp
      with h | h | h | h <;> rw [h] <;> norm_num
  have hcap_round := pyRound_le (ab * MAX_POSITION_SIZE) 2
  rcases hcase with ⟨hcap, rfl⟩ | ⟨hle, rfl⟩
  · refine ⟨?_, fun _ => ⟨rfl, rfl, ?_⟩⟩
    · simp only
      norm_num at hcap_round ⊢
      linarith
    · simp only
      linarith
  · have hq_round := pyRound_le (q * ep) 2
    refine ⟨?_, fun hcap => absurd hcap (not_lt.mpr hle)⟩
    simp only
    norm_num at hq_round ⊢
    linarith

/-- C1 witness: a concrete capped call (`fixed_percent`, balance 1000,
risk 10%, entry 100, stop 90) exercising both conjuncts. -/
theorem position_size_cap_invariant_witness :
    (calculate_position_size 1000 (1 / 10) 100 90 "fixed_percent" =
        .ok ⟨"", 2, 200, 100, 16 / 25⟩) ∧
    (sizingMethodResult 1000 (1000 * (1 / 10)) |(100 : ℚ) - 90| "fixed_percent" =
        .ok (10, 8 / 10)) ∧
    ((⟨"", 2, 200, 100, 16 / 25⟩ : PositionSize).notional_value ≤
        1000 * MAX_POSITION_SIZE + 1 / 200 ∧
      (1000 * MAX_POSITION_SIZE < 10 * 100 →
        (⟨"", 2, 200, 100, 16 / 25⟩ : PositionSize).quantity =
            pyRound (1000 * MAX_POSITION_SIZE / 100) 8 ∧
        (⟨"", 2, 200, 100, 16 / 25⟩ : PositionSize).confidence = 8 / 10 * (8 / 10) ∧
        (⟨"", 2, 200, 100, 16 / 25⟩ : PositionSize).confidence < 8 / 10)) := by
  have hok : calculate_position_size 1000 (1 / 10) 100 90 "fixed_percent" =
      .ok ⟨"", 2, 200, 100, 16 / 25⟩ := by
    norm_num [calculate_position_size, sizingMethodResult, pyRound, roundHalfEven,
      validMethods, MAX_POSITION_SIZE, Int.floor_eq_iff]
  have hdisp : sizingMethodResult 1000 (1000 * (1 / 10)) |(100 : ℚ) - 90| "fixed_percent" =
      .ok (10, 8 / 10) := by
    norm_num [sizingMethodResult]
  exact ⟨hok, hdisp,
    position_size_cap_invariant 1000 (1 / 10) 100 90 "fixed_percent" _ 10 (8 / 10) hok hdisp⟩

/-- C7: for every successful uncapped `fixed_percent` call, the returned
quantity satisfies `quantity * price_risk = account_balance * risk_per_trade`
up to the 8-decimal rounding tolerance, and the confidence is 0.8. -/
theorem fixed_percent_risk_equation (ab rpt ep sl : ℚ) (ps : PositionSize)
    (hok : calculate_position_size ab rpt ep sl "fixed_percent" = .ok ps)
    (hun : ab * rpt / |ep - sl| * ep ≤ ab * MAX_POSITION_SIZE) :
    |ps.quantity * |ep - sl| - ab * rpt| ≤ |ep - sl| / (2 * 10 ^ 8) ∧
    ps.confidence = 8 / 10 := by
  obtain ⟨q, c, hsm, hpr, hcase⟩ := calc_ok_cases ab rpt ep sl "fixed_percent" ps hok
  rw [sizingMethodResult] at hsm
  norm_num at hsm
  obtain ⟨rfl, rfl⟩ := hsm
  rcases hcase with ⟨hcap, rfl⟩ | ⟨hle, rfl⟩
  · exact absurd hcap (not_lt.mpr hun)
  · refine ⟨?_, by norm_num⟩
    simp only
    set pr := |ep - sl| with hprdef
    have h1 := abs_pyRound_sub_le (ab * rpt / pr) 8
    have hne : pr ≠ 0 := ne_of_gt hpr
    have hxpr : ab * rpt / pr * pr = ab * rpt := div_mul_cancel₀ _ hne
    have habs : |pr| = pr := abs_of_pos hpr
    calc |pyRound (ab * rpt / pr) 8 * pr - ab * rpt|
        = |(pyRound (ab * rpt / pr) 8 - ab * rpt / pr) * pr| := by
          rw [sub_mul, hxpr]
      _ = |pyRound (ab * rpt / pr) 8 - ab * rpt / pr| * pr := by
          rw [abs_mul, habs]
      _ ≤ 1 / (2 * 10 ^ 8) * pr :=
          mul_le_mul_of_nonneg_right h1 (le_of_lt hpr)
      _ = pr / (2 * 10 ^ 8) := by ring

/-- C7 witness: balance 1000, risk 1%, entry 100, stop 90 — uncapped,
quantity 1, confidence 0.8. -/
theorem fixed_percent_risk_equation_witness :
    (calculate_position_size 1000 (1 / 100) 100 90 "fixed_percent" =
        .ok ⟨"", 1, 100, 10, 8 / 10⟩) ∧
    (1000 * (1 / 100) / |(100 : ℚ) - 90| * 100 ≤ 1000 * MAX_POSITION_SIZE) ∧
    (|(⟨"", 1, 100, 10, 8 / 10⟩ : PositionSize).quantity * |(100 : ℚ) - 90| -
        1000 * (1 / 100)| ≤ |(100 : ℚ) - 90| / (2 * 10 ^ 8) ∧
      (⟨"", 1, 100, 10, 8 / 10⟩ : PositionSize).confidence = 8 / 10) := by
  have hok : calculate_position_size 1000 (1 / 100) 100 90 "fixed_percent" =
      .ok ⟨"", 1, 100, 10, 8 / 10⟩ := by
    norm_num [calculate_position_size, sizingMethodResult, pyRound, roundHalfEven,
      validMethods, MAX_POSITION_SIZE, Int.floor_eq_iff]
  have hun : 1000 * (1 / 100) / |(100 : ℚ) - 90| * 100 ≤ 1000 * MAX_POSITION_SIZE := by
    norm_num [MAX_POSITION_SIZE]
  exact ⟨hok, hun, fixed_percent_risk_equation 1000 (1 / 100) 100 90 _ hok hun⟩

/-- C6: when entry price equals stop-loss price and every range validation
passes, `calculate_position_size` fails with the position-sizing domain
error before any sizing method runs — it never silently returns a result. -/
theorem equal_entry_stop_errors (ab rpt ep : ℚ) (method : String)
    (hb : 1 / 100 ≤ ab) (hr1 : 1 / 1000 ≤ rpt) (hr2 : rpt ≤ 1 / 2)
    (he : 1 / 100 ≤ ep) (hm : method ∈ validMethods) :
    calculate_position_size ab rpt ep ep method =
      .error (.positionSizing
        "Price risk must be greater than zero (entry price cannot equal stop loss price)") := by
  rw [calculate_position_size, if_neg (not_lt.mpr hb), if_neg (not_lt.mpr hr1),
    if_neg (not_lt.mpr hr2), if_neg (not_lt.mpr he), if_neg (not_lt.mpr he),
    if_neg (not_not_intro hm), if_pos (by simp)]

/-- C6 witness: entry = stop = 100 with otherwise valid inputs errors out. -/
theorem equal_entry_stop_errors_witness :
    (1 / 100 : ℚ) ≤ 1000 ∧ (1 / 1000 : ℚ) ≤ 1 / 50 ∧ (1 / 50 : ℚ) ≤ 1 / 2 ∧
    (1 / 100 : ℚ) ≤ 100 ∧ "fixed_percent" ∈ validMethods ∧
    calculate_position_size 1000 (1 / 50) 100 100 "fixed_percent" =
      .error (.positionSizing
        "Price risk must be greater than zero (entry price cannot equal stop loss price)") := by
  refine ⟨by norm_num, by norm_num, by norm_num, by norm_num, by simp [validMethods], ?_⟩
  exact equal_entry_stop_errors 1000 (1 / 50) 100 "fixed_percent"
    (by norm_num) (by norm_num) (by norm_num) (by norm_num) (by simp [validMethods])

/-- C2 counterexample: for balance 1000, risk 1%, entry 100, stop 90, the
`volatility` method returns quantity 1.25, not the claimed
`0.8 × balance × risk / priceRisk = 0.8`: the code divides the risk amount
by the 0.8 volatility factor instead of multiplying by it. -/
theorem volatility_multiplies_claim_false :
    calculate_position_size 1000 (1 / 100) 100 90 "volatility" =
      .ok ⟨"", 5 / 4, 125, 10, 7 / 10⟩ ∧
    (5 / 4 : ℚ) ≠ 8 / 10 * (1000 * (1 / 100)) / 10 := by
  constructor
  · rw [calculate_position_size]
    simp only [sizingMethodResult, validMethods, String.reduceEq]
    norm_num [pyRound, roundHalfEven, MAX_POSITION_SIZE, Int.floor_eq_iff]
  · norm_num

/-- C2 amended: the `volatility` method divides the risk amount by the fixed
volatility-adjustment factor 0.8 (i.e. multiplies it by 1.25) before dividing
by the price risk, so the uncapped quantity equals
`accountBalance × riskPerTrade × 1.25 / priceRisk` (then rounded to 8
decimals), and the confidence is 0.7 when uncapped. -/
theorem volatility_divides_by_factor (ab rpt ep sl : ℚ) (ps : PositionSize)
    (hok : calculate_position_size ab rpt ep sl "volatility" = .ok ps)
    (hun : ab * rpt * (1 / (8 / 10)) / |ep - sl| * ep ≤ ab * MAX_POSITION_SIZE) :
    ps.quantity = pyRound (ab * rpt * (5 / 4) / |ep - sl|) 8 ∧
    ps.confidence = 7 / 10 := by
  obtain ⟨q, c, hsm, hpr, hcase⟩ := calc_ok_cases ab rpt ep sl "volatility" ps hok
  rw [sizingMethodResult] at hsm
  norm_num at hsm
  obtain ⟨rfl, rfl⟩ := hsm
  have hfactor : ab * rpt * (1 / (8 / 10 : ℚ)) = ab * rpt * (5 / 4) := by norm_num
  rcases hcase with ⟨hcap, rfl⟩ | ⟨hle, rfl⟩
  · rw [hfactor] at hun
    exact absurd hcap (not_lt.mpr hun)
  · exact ⟨rfl, by norm_num⟩

/-- C2 amended witness: the same concrete input as the counterexample,
uncapped, yields quantity 1.25 and confidence 0.7. -/
theorem volatility_divides_by_factor_witness :
    (calculate_position_size 1000 (1 / 100) 100 90 "volatility" =
        .ok ⟨"", 5 / 4, 125, 10, 7 / 10⟩) ∧
    (1000 * (1 / 100) * (1 / (8 / 10)) / |(100 : ℚ) - 90| * 100 ≤
        1000 * MAX_POSITION_SIZE) ∧
    ((⟨"", 5 / 4, 125, 10, 7 / 10⟩ : PositionSize).quantity =
        pyRound (1000 * (1 / 100) * (5 / 4) / |(100 : ℚ) - 90|) 8 ∧
      (⟨"", 5 / 4, 125, 10, 7 / 10⟩ : PositionSize).confidence = 7 / 10) := by
  have hok : calculate_position_size 1000 (1 / 100) 100 90 "volatility" =
      .ok ⟨"", 5 / 4, 125, 10, 7 / 10⟩ := by
    rw [calculate_position_size]
    simp only [sizingMethodResult, validMethods, String.reduceEq]
    norm_num [pyRound, roundHalfEven, MAX_POSITION_SIZE, Int.floor_eq_iff]
  have hun : 1000 * (1 / 100) * (1 / (8 / 10)) / |(100 : ℚ) - 90| * 100 ≤
      1000 * MAX_POSITION_SIZE := by
    norm_num [MAX_POSITION_SIZE]
  exact ⟨hok, hun, volatility_divides_by_factor 1000 (1 / 100) 100 90 _ hok hun⟩

/-! ### Maximum drawdown (`RiskCalculator.calculate_max_drawdown`,
main.py lines 259-280)

`np.cumsum`, `np.maximum.accumulate`, `np.min` and `np.mean` are modelled
by structural recursion on lists. -/

def cumsumAux (acc : ℚ) : List ℚ → List ℚ
  | [] => []
  | x :: xs => (acc + x) :: cumsumAux (acc + x) xs

/-- `np.cumsum` -/
def cumsum (l : List ℚ) : List ℚ := cumsumAux 0 l

def runningMaxAux (m : ℚ) : List ℚ → List ℚ
  | [] => [m]
  | y :: ys => m :: runningMaxAux (max m y) ys

/-- `np.maximum.accumulate` -/
def runningMax : List ℚ → List ℚ
  | [] => []
  | x :: xs => runningMaxAux x xs

/-- `np.min` of a (nonempty) list; 0 on the empty list, which the guarded
callers never hit. -/
def minList : List ℚ → ℚ
  | [] => 0
  | x :: xs => xs.foldl min x

/-- The `drawdowns` array: `(cumulative_pnl - running_max) /
np.maximum(running_max, 1)`. -/
def drawdownsOf (pnl : List ℚ) : List ℚ :=
  ((cumsum pnl).zip (runningMax (cumsum pnl))).map fun p => (p.1 - p.2) / max p.2 1

/-- `RiskCalculator.calculate_max_drawdown`: histories with fewer than two
points return 0, otherwise `abs(np.min(drawdowns))`. -/
def calculate_max_drawdown (pnl : List ℚ) : ℚ :=
  if pnl.length < 2 then 0
  else |minList (drawdownsOf pnl)|

theorem foldl_min_le (xs : List ℚ) : ∀ acc : ℚ, xs.foldl min acc ≤ acc := by
  induction xs with
  | nil => intro acc; simp
  | cons y ys ih => intro acc; exact le_trans (ih (min acc y)) (min_le_left _ _)

theorem zip_runningMaxAux_le (l : List ℚ) : ∀ x m : ℚ, x ≤ m →
    ∀ p ∈ (x :: l).zip (runningMaxAux m l), p.1 ≤ p.2 := by
  induction l with
  | nil =>
      intro x m hxm p hp
      simp only [runningMaxAux, List.zip_cons_cons, List.zip_nil_left,
        List.mem_singleton] at hp
      subst hp
      exact hxm
  | cons y ys ih =>
      intro x m hxm p hp
      simp only [runningMaxAux, List.zip_cons_cons, List.mem_cons] at hp
      rcases hp with rfl | hp
      · exact hxm
      · exact ih y (max m y) (le_max_right m y) p hp

theorem drawdownsOf_nonpos (l : List ℚ) : ∀ d ∈ drawdownsOf l, d ≤ 0 := by
  intro d hd
  rw [drawdownsOf] at hd
  rcases hcs : cumsum l with _ | ⟨c, cs⟩
  · rw [hcs] at hd
    simp [runningMax] at hd
  · rw [hcs] at hd
    simp only [runningMax, List.mem_map] at hd
    obtain ⟨p, hp, rfl⟩ := hd
    have h1 := zip_runningMaxAux_le cs c c (le_refl c) p hp
    have hden : (0 : ℚ) < max p.2 1 := lt_of_lt_of_le one_pos (le_max_right _ _)
    exact div_nonpos_iff.mpr (Or.inr ⟨sub_nonpos.mpr h1, le_of_lt hden⟩)

theorem minList_drawdowns_nonpos (a : ℚ) (xs : List ℚ) :
    minList (drawdownsOf (a :: xs)) ≤ 0 := by
  cases xs with
  | nil =>
      simp [drawdownsOf, cumsum, cumsumAux, runningMax, runningMaxAux, minList]
  | cons b ys =>
      simp only [drawdownsOf, cumsum, cumsumAux, runningMax, runningMaxAux,
        List.zip_cons_cons, List.map_cons, zero_add, sub_self, zero_div, minList]
      exact foldl_min_le _ 0

/-- C3 counterexample: the P&L history `[0, -5]` has running maximum `[0, 0]`
and drawdowns `[0, -5]` (the `max(runningMax, 1)` clamp makes the
denominator 1), so `calculate_max_drawdown` returns 5, which exceeds 1. -/
theorem max_drawdown_le_one_false :
    calculate_max_drawdown [0, -5] = 5 ∧
    ¬ calculate_max_drawdown [0, -5] ≤ 1 := by
  have h : calculate_max_drawdown [0, -5] = 5 := by
    rw [calculate_max_drawdown]
    norm_num [drawdownsOf, cumsum, cumsumAux, runningMax, runningMaxAux,
      minList, max_def, min_def, List.foldl, abs_of_nonpos]
  exact ⟨h, by rw [h]; norm_num⟩

/-- C3 amended: `calculate_max_drawdown` is always nonnegative, returns 0 on
histories with fewer than 2 points, every entry of the drawdown array is
nonpositive, and on histories of length ≥ 2 the result is the negation of
the minimum drawdown — but it is not bounded by 1 (see the counterexample). -/
theorem max_drawdown_nonneg (l : List ℚ) :
    0 ≤ calculate_max_drawdown l ∧
    (l.length < 2 → calculate_max_drawdown l = 0) ∧
    (∀ d ∈ drawdownsOf l, d ≤ 0) ∧
    (2 ≤ l.length → calculate_max_drawdown l = -minList (drawdownsOf l)) := by
  refine ⟨?_, ?_, drawdownsOf_nonpos l, ?_⟩
  · rw [calculate_max_drawdown]
    split_ifs
    · exact le_refl 0
    · exact abs_nonneg _
  · intro hlen
    rw [calculate_max_drawdown, if_pos hlen]
  · intro hlen
    rw [calculate_max_drawdown, if_neg (not_lt.mpr hlen)]
    rcases l with _ | ⟨a, xs⟩
    · simp at hlen
    · exact abs_of_nonpos (minList_drawdowns_nonpos a xs)

/-- C3 amended witness: the history `[1, -3]` yields drawdown 3 =
−min([0, −3]). -/
theorem max_drawdown_nonneg_witness :
    0 ≤ calculate_max_drawdown [1, -3] ∧
    calculate_max_drawdown [1, -3] = -minList (drawdownsOf [1, -3]) :=
  ⟨(max_drawdown_nonneg [1, -3]).1,
   (max_drawdown_nonneg [1, -3]).2.2.2 (by norm_num)⟩

/-! ### Kelly Criterion optimisation (tool `optimize_kelly_criterion`,
main.py lines 698-825)

The returned `kelly_calculation` dict is modelled by `KellyCalculation`.
The `risk_of_ruin` entry — `(q/p) ** (1/kelly_fraction)`, a non-algebraic
real power — is not modelled; no property here depends on it. -/

structure KellyCalculation where
  raw_kelly_fraction : ℚ
  optimal_kelly_fraction : ℚ
  recommended_position_size_percent : ℚ
  expected_value : ℚ
  odds_ratio : ℚ
  deriving Repr, DecidableEq

/-- `optimize_kelly_criterion`: input guards return the error dict; otherwise
`b = avg_win/avg_loss`, `kelly = (b*p - q)/b`, clamped to `[0, max_kelly]`.
Python locals `p = win_rate`, `q = 1 - win_rate` are inlined. -/
def optimize_kelly_criterion (win_rate avg_win avg_loss max_kelly : ℚ) :
    Except String KellyCalculation :=
  if win_rate ≤ 0 ∨ win_rate ≥ 1 then
    .error "Win rate must be between 0 and 1"
  else if avg_win ≤ 0 ∨ avg_loss ≤ 0 then
    .error "Average win and loss amounts must be positive"
  else
    .ok { raw_kelly_fraction :=
            (avg_win / avg_loss * win_rate - (1 - win_rate)) / (avg_win / avg_loss)
          optimal_kelly_fraction :=
            max 0 (min ((avg_win / avg_loss * win_rate - (1 - win_rate)) /
              (avg_win / avg_loss)) max_kelly)
          recommended_position_size_percent :=
            max 0 (min ((avg_win / avg_loss * win_rate - (1 - win_rate)) /
              (avg_win / avg_loss)) max_kelly) * 100
          expected_value := win_rate * avg_win - (1 - win_rate) * avg_loss
          odds_ratio := avg_win / avg_loss }

/-- C5: for valid inputs (win rate strictly between 0 and 1, positive
average win and loss, nonnegative Kelly cap), the optimal Kelly fraction is
always clamped into `[0, max_kelly]`; and the documented scenario
(winRate 0.6, avgWin 200, avgLoss 100, maxKelly 0.25) yields odds ratio 2,
raw Kelly fraction 0.4 and optimal fraction 0.25. -/
theorem kelly_fraction_clamped (win_rate avg_win avg_loss max_kelly : ℚ)
    (h1 : 0 < win_rate) (h2 : win_rate < 1) (h3 : 0 < avg_win)
    (h4 : 0 < avg_loss) (h5 : 0 ≤ max_kelly) :
    (∃ kc, optimize_kelly_criterion win_rate avg_win avg_loss max_kelly = .ok kc ∧
      0 ≤ kc.optimal_kelly_fraction ∧ kc.optimal_kelly_fraction ≤ max_kelly) ∧
    optimize_kelly_criterion (6 / 10) 200 100 (25 / 100) =
      .ok { raw_kelly_fraction := 2 / 5, optimal_kelly_fraction := 1 / 4,
            recommended_position_size_percent := 25, expected_value := 80,
            odds_ratio := 2 } := by
  constructor
  · rw [optimize_kelly_criterion,
      if_neg (by push_neg; exact ⟨h1, h2⟩), if_neg (by push_neg; exact ⟨h3, h4⟩)]
    exact ⟨_, rfl, le_max_left 0 _, max_le h5 (min_le_right _ _)⟩
  · rw [optimize_kelly_criterion]
    norm_num [max_def, min_def]

/-- C5 witness: the documented scenario instantiates the general clamping
statement. -/
theorem kelly_fraction_clamped_witness :
    ((0 : ℚ) < 6 / 10 ∧ (6 / 10 : ℚ) < 1 ∧ (0 : ℚ) < 200 ∧ (0 : ℚ) < 100 ∧
      (0 : ℚ) ≤ 25 / 100) ∧
    (∃ kc, optimize_kelly_criterion (6 / 10) 200 100 (25 / 100) = .ok kc ∧
      0 ≤ kc.optimal_kelly_fraction ∧ kc.optimal_kelly_fraction ≤ 25 / 100) := by
  refine ⟨⟨by norm_num, by norm_num, by norm_num, by norm_num, by norm_num⟩, ?_⟩
  exact (kelly_fraction_clamped (6 / 10) 200 100 (25 / 100)
    (by norm_num) (by norm_num) (by norm_num) (by norm_num) (by norm_num)).1

/-! ### Correlation risk (`RiskCalculator.assess_correlation_risk`,
main.py lines 301-363)

Python's `"BTC" in symbol` substring test and `symbol.endswith("USDT")`
are modelled on `List Char`. -/

structure PortfolioPosition where
  symbol : String
  quantity : ℚ
  entry_price : ℚ
  current_price : ℚ
  market_value : ℚ
  unrealized_pnl : ℚ
  unrealized_pnl_percent : ℚ
  weight : ℚ
  deriving Repr, DecidableEq

/-- Whether `pat` occurs as a contiguous sublist. -/
def hasSubList (pat : List Char) : List Char → Bool
  | [] => pat.isEmpty
  | c :: rest => pat.isPrefixOf (c :: rest) || hasSubList pat rest

/-- Python `pat in s`. -/
def containsStr (s pat : String) : Bool := hasSubList pat.data s.data

/-- Python `s.endswith(suf)`. -/
def strEndsWith (s suf : String) : Bool := suf.data.isSuffixOf s.data

/-- The pairwise correlation heuristic of `assess_correlation_risk`. -/
def pairCorrelation (symbol1 symbol2 : String) : ℚ :=
  if containsStr symbol1 "BTC" && containsStr symbol2 "BTC" then 95 / 100
  else if (containsStr symbol1 "BTC" || containsStr symbol1 "ETH") &&
      (containsStr symbol2 "BTC" || containsStr symbol2 "ETH") then 85 / 100
  else if strEndsWith symbol1 "USDT" && strEndsWith symbol2 "USDT" then 70 / 100
  else 60 / 100

/-- The `for i / for j in range(i+1, n)` double loop: all ordered pairs. -/
def pairsOf {α : Type} : List α → List (α × α)
  | [] => []
  | x :: xs => (xs.map fun y => (x, y)) ++ pairsOf xs

def sumList (l : List ℚ) : ℚ := l.foldl (· + ·) 0

/-- `np.max` of a (nonempty) list; 0 on the empty list (guarded in the
source by `if correlations else 0.0`). -/
def maxList : List ℚ → ℚ
  | [] => 0
  | x :: xs => xs.foldl max x

def correlationsOf (positions : List PortfolioPosition) : List ℚ :=
  (pairsOf positions).map fun p => pairCorrelation p.1.symbol p.2.symbol

def maxCorrelationOf (positions : List PortfolioPosition) : ℚ :=
  if (correlationsOf positions).isEmpty then 0
  else maxList (correlationsOf positions)

structure CorrelationAssessment where
  avg_correlation : ℚ
  max_correlation : ℚ
  risk_level : String
  deriving Repr, DecidableEq

/-- `RiskCalculator.assess_correlation_risk`: fewer than 2 positions return
`(0, 0, "low")`; otherwise mean and max of the pairwise correlations, with
risk level `high` above 0.8, `medium` above 0.6, else `low`. -/
def assess_correlation_risk (positions : List PortfolioPosition) :
    CorrelationAssessment :=
  if positions.length < 2 then ⟨0, 0, "low"⟩
  else
    ⟨if (correlationsOf positions).isEmpty then 0
       else sumList (correlationsOf positions) / (correlationsOf positions).length,
     maxCorrelationOf positions,
     if maxCorrelationOf positions > 8 / 10 then "high"
     else if maxCorrelationOf positions > 6 / 10 then "medium"
     else "low"⟩

/-- C8: the full correlation heuristic.  Fewer than 2 positions give
`(0, 0, "low")`; any two positions whose symbols both contain `"BTC"` give
max correlation 0.95 and level `"high"`; the pairwise correlation is 0.95
when both symbols contain `"BTC"`, 0.85 when each contains `"BTC"` or
`"ETH"` (and not both `"BTC"`), 0.70 when both end in `"USDT"` (and the
BTC/ETH cases do not apply), else 0.60; and the risk level is `"high"`
exactly when the maximum pairwise correlation exceeds 0.8, `"medium"`
exactly when it is at most 0.8 but exceeds 0.6, and `"low"` exactly when it
is at most 0.6. -/
theorem correlation_risk_rules :
    (∀ ps : List PortfolioPosition, ps.length < 2 →
        assess_correlation_risk ps = ⟨0, 0, "low"⟩) ∧
    (∀ p₁ p₂ : PortfolioPosition,
        containsStr p₁.symbol "BTC" = true → containsStr p₂.symbol "BTC" = true →
        assess_correlation_risk [p₁, p₂] = ⟨95 / 100, 95 / 100, "high"⟩) ∧
    (∀ s₁ s₂ : String, containsStr s₁ "BTC" = true → containsStr s₂ "BTC" = true →
        pairCorrelation s₁ s₂ = 95 / 100) ∧
    (∀ s₁ s₂ : String,
        (containsStr s₁ "BTC" || containsStr s₁ "ETH") = true →
        (containsStr s₂ "BTC" || containsStr s₂ "ETH") = true →
        ¬(containsStr s₁ "BTC" = true ∧ containsStr s₂ "BTC" = true) →
        pairCorrelation s₁ s₂ = 85 / 100) ∧
    (∀ s₁ s₂ : String,
        strEndsWith s₁ "USDT" = true → strEndsWith s₂ "USDT" = true →
        ¬((containsStr s₁ "BTC" || containsStr s₁ "ETH") = true ∧
          (containsStr s₂ "BTC" || containsStr s₂ "ETH") = true) →
        pairCorrelation s₁ s₂ = 70 / 100) ∧
    (∀ s₁ s₂ : String,
        ¬((containsStr s₁ "BTC" || containsStr s₁ "ETH") = true ∧
          (containsStr s₂ "BTC" || containsStr s₂ "ETH") = true) →
        ¬(strEndsWith s₁ "USDT" = true ∧ strEndsWith s₂ "USDT" = true) →
        pairCorrelation s₁ s₂ = 60 / 100) ∧
    (∀ ps : List PortfolioPosition,
        (assess_correlation_risk ps).risk_level = "high" ↔
          8 / 10 < (assess_correlation_risk ps).max_correlation) ∧
    (∀ ps : List PortfolioPosition,
        (assess_correlation_risk ps).risk_level = "medium" ↔
          ((assess_correlation_risk ps).max_correlation ≤ 8 / 10 ∧
            6 / 10 < (assess_correlation_risk ps).max_correlation)) ∧
    (∀ ps : List PortfolioPosition,
        (assess_correlation_risk ps).risk_level = "low" ↔
          (assess_correlation_risk ps).max_correlation ≤ 6 / 10) := by
  refine ⟨?_, ?_, ?_, ?_, ?_, ?_, ?_, ?_, ?_⟩
  · intro ps h
    rw [assess_correlation_risk, if_pos h]
  · intro p₁ p₂ h1 h2
    have hpair : pairCorrelation p₁.symbol p₂.symbol = 95 / 100 := by
      rw [pairCorrelation, if_pos (by rw [h1, h2]; rfl)]
    have hcorr : correlationsOf [p₁, p₂] = [95 / 100] := by
      simp [correlationsOf, pairsOf, hpair]
    rw [assess_correlation_risk, if_neg (by norm_num)]
    rw [CorrelationAssessment.mk.injEq]
    refine ⟨?_, ?_, ?_⟩
    · rw [hcorr]
      norm_num [sumList]
    · rw [maxCorrelationOf, hcorr]
      norm_num [maxList]
    · rw [if_pos (by rw [maxCorrelationOf, hcorr]; norm_num [maxList])]
  · intro s₁ s₂ h1 h2
    rw [pairCorrelation, if_pos (by rw [h1, h2]; rfl)]
  · intro s₁ s₂ h1 h2 hn
    have hno1 : ¬((containsStr s₁ "BTC" && containsStr s₂ "BTC") = true) := by
      simp only [Bool.and_eq_true]
      exact hn
    have hyes : ((containsStr s₁ "BTC" || containsStr s₁ "ETH") &&
        (containsStr s₂ "BTC" || containsStr s₂ "ETH")) = true := by
      rw [h1, h2]
      rfl
    rw [pairCorrelation, if_neg hno1, if_pos hyes]
  · intro s₁ s₂ h1 h2 hn2
    have hno1 : ¬((containsStr s₁ "BTC" && containsStr s₂ "BTC") = true) := by
      simp only [Bool.and_eq_true]
      intro h
      exact hn2 ⟨by rw [h.1]; rfl, by rw [h.2]; rfl⟩
    have hno2 : ¬(((containsStr s₁ "BTC" || containsStr s₁ "ETH") &&
        (containsStr s₂ "BTC" || containsStr s₂ "ETH")) = true) := by
      simp only [Bool.and_eq_true]
      exact hn2
    have hyes : (strEndsWith s₁ "USDT" && strEndsWith s₂ "USDT") = true := by
      rw [h1, h2]
      rfl
    rw [pairCorrelation, if_neg hno1, if_neg hno2, if_pos hyes]
  · intro s₁ s₂ hn2 hn3
    have hno1 : ¬((containsStr s₁ "BTC" && containsStr s₂ "BTC") = true) := by
      simp only [Bool.and_eq_true]
      intro h
      exact hn2 ⟨by rw [h.1]; rfl, by rw [h.2]; rfl⟩
    have hno2 : ¬(((containsStr s₁ "BTC" || containsStr s₁ "ETH") &&
        (containsStr s₂ "BTC" || containsStr s₂ "ETH")) = true) := by
      simp only [Bool.and_eq_true]
      exact hn2
    have hno3 : ¬((strEndsWith s₁ "USDT" && strEndsWith s₂ "USDT") = true) := by
      simp only [Bool.and_eq_true]
      exact hn3
    rw [pairCorrelation, if_neg hno1, if_neg hno2, if_neg hno3]
  · intro ps
    by_cases hlen : ps.length < 2
    · rw [assess_correlation_risk, if_pos hlen]
      dsimp only
      exact iff_of_false (by decide) (by norm_num)
    · rw [assess_correlation_risk, if_neg hlen]
      dsimp only
      split_ifs with hc1 hc2
      · exact iff_of_true rfl hc1
      · exact iff_of_false (by decide) hc1
      · exact iff_of_false (by decide) hc1
  · intro ps
    by_cases hlen : ps.length < 2
    · rw [assess_correlation_risk, if_pos hlen]
      dsimp only
      exact iff_of_false (by decide) (fun h => absurd h.2 (by norm_num))
    · rw [assess_correlation_risk, if_neg hlen]
      dsimp only
      split_ifs with hc1 hc2
      · exact iff_of_false (by decide) (fun h => absurd hc1 (not_lt.mpr h.1))
      · exact iff_of_true rfl ⟨not_lt.mp hc1, hc2⟩
      · exact iff_of_false (by decide) (fun h => absurd h.2 hc2)
  · intro ps
    by_cases hlen : ps.length < 2
    · rw [assess_correlation_risk, if_pos hlen]
      dsimp only
      exact iff_of_true rfl (by norm_num)
    · rw [assess_correlation_risk, if_neg hlen]
      dsimp only
      split_ifs with hc1 hc2
      · exact iff_of_false (by decide) (fun h => absurd hc1 (by intro hc; linarith))
      · exact iff_of_false (by decide) (fun h => absurd hc2 (not_lt.mpr h))
      · exact iff_of_true rfl (not_lt.mp hc2)

/-- C8 witness: two concrete BTC positions give max correlation 0.95 and
risk level high, and concrete symbol pairs hit the 0.85 (ETH/BTC), 0.70
(two non-BTC/ETH USDT alts) and 0.60 (default) pairwise rules. -/
theorem correlation_risk_rules_witness :
    containsStr (PortfolioPosition.symbol ⟨"BTCUSDT", 0, 0, 0, 0, 0, 0, 0⟩) "BTC" = true ∧
    containsStr (PortfolioPosition.symbol ⟨"WBTCUSDT", 0, 0, 0, 0, 0, 0, 0⟩) "BTC" = true ∧
    assess_correlation_risk
        [⟨"BTCUSDT", 0, 0, 0, 0, 0, 0, 0⟩, ⟨"WBTCUSDT", 0, 0, 0, 0, 0, 0, 0⟩] =
      ⟨95 / 100, 95 / 100, "high"⟩ ∧
    pairCorrelation "ETHUSDT" "BTCUSDT" = 85 / 100 ∧
    pairCorrelation "XRPUSDT" "DOGEUSDT" = 70 / 100 ∧
    pairCorrelation "XRP" "DOGE" = 60 / 100 := by
  refine ⟨by decide, by decide, ?_, ?_, ?_, ?_⟩
  · exact correlation_risk_rules.2.1 ⟨"BTCUSDT", 0, 0, 0, 0, 0, 0, 0⟩
      ⟨"WBTCUSDT", 0, 0, 0, 0, 0, 0, 0⟩ (by decide) (by decide)
  · exact correlation_risk_rules.2.2.2.1 "ETHUSDT" "BTCUSDT"
      (by decide) (by decide) (by decide)
  · exact correlation_risk_rules.2.2.2.2.1 "XRPUSDT" "DOGEUSDT"
      (by decide) (by decide) (by decide)
  · exact correlation_risk_rules.2.2.2.2.2.1 "XRP" "DOGE" (by decide) (by decide)

/-! ### Risk alerts (`RiskCalculator.generate_risk_alerts`,
main.py lines 365-425)

`RiskMetrics` and `RiskAlert` mirror the dataclasses in
`src/shared/shared_types.py`.  The human-readable `message` strings
(Python f-strings) are not modelled; every claim concerns the `level`,
`metric`, `current_value` and `threshold` fields. -/

structure RiskMetrics where
  var_1d : ℚ
  max_drawdown : ℚ
  sharpe_ratio : Option ℚ
  portfolio_beta : Option ℚ
  correlation_risk : String

structure RiskParameters where
  max_position_size : ℚ := MAX_POSITION_SIZE
  max_portfolio_risk : ℚ := MAX_PORTFOLIO_RISK
  max_drawdown : ℚ := MAX_DRAWDOWN
  max_correlation : ℚ := MAX_CORRELATION
  stop_loss_percent : ℚ := STOP_LOSS_PERCENT
  take_profit_ratio : ℚ := 2

structure RiskAlert where
  level : String
  metric : String
  current_value : ℚ
  threshold : ℚ

/-- `RiskCalculator.generate_risk_alerts`: the four conditional appends
(VaR, drawdown, correlation, Sharpe). -/
def generate_risk_alerts (m : RiskMetrics) (p : RiskParameters) :
    List RiskAlert :=
  (if m.var_1d > p.max_portfolio_risk * DEMO_ACCOUNT_BALANCE then
    [⟨"warning", "var_1d", m.var_1d, p.max_portfolio_risk * DEMO_ACCOUNT_BALANCE⟩]
   else []) ++
  (if m.max_drawdown > p.max_drawdown then
    [⟨"critical", "max_drawdown", m.max_drawdown, p.max_drawdown⟩]
   else []) ++
  (if m.correlation_risk = "high" then
    [⟨"warning", "correlation_risk", HIGH_CORRELATION_THRESHOLD, p.max_correlation⟩]
   else []) ++
  (match m.sharpe_ratio with
   | some sr => if sr < 1 / 2 then [⟨"warning", "sharpe_ratio", sr, 1 / 2⟩] else []
   | none => [])

/-- C9: the VaR alert compares `var_1d` against `max_portfolio_risk`
multiplied by the fixed `DEMO_ACCOUNT_BALANCE = 100000` constant — the
function takes no account balance, so the var_1d alert (and its threshold)
is fully determined by the metrics and risk parameters alone. -/
theorem var_alert_uses_demo_balance (m : RiskMetrics) (p : RiskParameters) :
    DEMO_ACCOUNT_BALANCE = 100000 ∧
    (generate_risk_alerts m p).filter (fun a => a.metric == "var_1d") =
      (if m.var_1d > p.max_portfolio_risk * 100000 then
        [⟨"warning", "var_1d", m.var_1d, p.max_portfolio_risk * 100000⟩]
       else []) := by
  refine ⟨rfl, ?_⟩
  rw [generate_risk_alerts]
  rw [show p.max_portfolio_risk * DEMO_ACCOUNT_BALANCE =
    p.max_portfolio_risk * 100000 from rfl]
  simp only [List.filter_append]
  split_ifs with h1 h2 h3 <;>
    rcases hs : m.sharpe_ratio with _ | sr <;>
      simp [List.filter, hs]

/-! ### Tool-level `generate_risk_alerts` risk score (main.py lines 585-696) -/

/-- The incremental `risk_score` computation: `+30` for drawdown above
`STOP_LOSS_PERCENT`, `+20` for daily P&L below `-MODERATE_DAILY_LOSS`,
`+15` for any VaR breach, `+20` for high correlation. -/
def riskScore (current_drawdown daily_pnl : ℚ) (var_breaches : ℤ)
    (correlation_level : String) : ℤ :=
  (if current_drawdown > STOP_LOSS_PERCENT then 30 else 0) +
  (if daily_pnl < -MODERATE_DAILY_LOSS then 20 else 0) +
  (if var_breaches > 0 then 15 else 0) +
  (if correlation_level = "high" then 20 else 0)

/-- `risk_level = "low" if risk_score < 25 else "medium" if risk_score < 60
else "high"`. -/
def toolRiskLevel (current_drawdown daily_pnl : ℚ) (var_breaches : ℤ)
    (correlation_level : String) : String :=
  if riskScore current_drawdown daily_pnl var_breaches correlation_level < 25 then "low"
  else if riskScore current_drawdown daily_pnl var_breaches correlation_level < 60 then "medium"
  else "high"

/-- The `"risk_score": min(100, risk_score)` entry of the returned dict. -/
def reportedRiskScore (current_drawdown daily_pnl : ℚ) (var_breaches : ℤ)
    (correlation_level : String) : ℤ :=
  min 100 (riskScore current_drawdown daily_pnl var_breaches correlation_level)

/-- Formalisation device (not in the source): how many of the four
risk-score conditions hold. -/
def breachCount (current_drawdown daily_pnl : ℚ) (var_breaches : ℤ)
    (correlation_level : String) : ℕ :=
  (if current_drawdown > STOP_LOSS_PERCENT then 1 else 0) +
  (if daily_pnl < -MODERATE_DAILY_LOSS then 1 else 0) +
  (if var_breaches > 0 then 1 else 0) +
  (if correlation_level = "high" then 1 else 0)

/-- C10: the risk score is a sum of at most `30 + 20 + 15 + 20`, hence lies
in `[0, 85]`; the `min(100, ·)` clamp never binds and 100 is unreachable;
and a `"high"` level (score ≥ 60) requires at least three of the four
threshold breaches. -/
theorem risk_score_bounds (cd pnl : ℚ) (vb : ℤ) (corr : String) :
    0 ≤ riskScore cd pnl vb corr ∧
    riskScore cd pnl vb corr ≤ 85 ∧
    reportedRiskScore cd pnl vb corr = riskScore cd pnl vb corr ∧
    riskScore cd pnl vb corr ≠ 100 ∧
    (toolRiskLevel cd pnl vb corr = "high" → 3 ≤ breachCount cd pnl vb corr) ∧
    (toolRiskLevel cd pnl vb corr = "high" ↔ 60 ≤ riskScore cd pnl vb corr) := by
  unfold toolRiskLevel reportedRiskScore riskScore breachCount
  split_ifs <;> simp_all

/-- C10 witness: drawdown 10%, daily loss 2000 and high correlation give
score 70, level high, and exactly three breaches. -/
theorem risk_score_bounds_witness :
    toolRiskLevel (1 / 10) (-2000) 0 "high" = "high" ∧
    3 ≤ breachCount (1 / 10) (-2000) 0 "high" ∧
    riskScore (1 / 10) (-2000) 0 "high" ≤ 85 := by
  have h := risk_score_bounds (1 / 10) (-2000) 0 "high"
  have hlevel : toolRiskLevel (1 / 10) (-2000) 0 "high" = "high" := by
    norm_num [toolRiskLevel, riskScore, STOP_LOSS_PERCENT, MODERATE_DAILY_LOSS]
  exact ⟨hlevel, h.2.2.2.2.1 hlevel, h.2.1⟩

/-! ### Decision engine (`CryptoTrader.make_trading_decision` and
`CryptoTrader._rule_based_decision`, `src/client/crypto_trader.py`
lines 549-658)

The AI tool result (`generate_trading_signal` of the AI server) is modelled
by its `success` flag and the `action`/`confidence` fields of its `signal`
dict — the only parts the client path reads.  The trade dict returned on the
AI path also carries entry/stop/take-profit/reasoning payload fields not
modelled here; `Decision.trade` keeps the `action` and `confidence` the
claims concern. -/

def TECHNICAL_SIGNAL_WEIGHT : ℚ := 6 / 10
def NEWS_SENTIMENT_WEIGHT : ℚ := 5 / 10
def SOCIAL_SENTIMENT_WEIGHT : ℚ := 4 / 10
def RULE_BASED_BUY_THRESHOLD : ℚ := 3 / 10
def RULE_BASED_SELL_THRESHOLD : ℚ := -(3 / 10)
def CONFIDENCE_BOOST : ℚ := 3 / 10
def MAX_RULE_CONFIDENCE : ℚ := 8 / 10

structure AISignal where
  action : String
  confidence : ℚ

structure AIToolResult where
  success : Bool
  signal : AISignal

structure TechnicalData where
  success : Bool
  overall_signal : String

structure SentimentData where
  success : Bool
  overall_sentiment : ℚ

structure MarketAnalysis where
  technical : TechnicalData
  news : SentimentData
  social : SentimentData

structure PositionResult where
  success : Bool
  quantity : ℚ
  risk_amount : ℚ

inductive Decision where
  | trade (action : String) (confidence : ℚ)
  | noTrade (reason : String)
  deriving Repr, DecidableEq

/-- The `scores` list built by `_rule_based_decision`: a technical vote of
`±TECHNICAL_SIGNAL_WEIGHT` (nothing on a neutral signal), then weighted news
and social sentiment. -/
def ruleScores (a : MarketAnalysis) : List ℚ :=
  (if a.technical.success then
    (if a.technical.overall_signal = "bullish" then [TECHNICAL_SIGNAL_WEIGHT]
     else if a.technical.overall_signal = "bearish" then [-TECHNICAL_SIGNAL_WEIGHT]
     else [])
   else []) ++
  (if a.news.success then [a.news.overall_sentiment * NEWS_SENTIMENT_WEIGHT] else []) ++
  (if a.social.success then [a.social.overall_sentiment * SOCIAL_SENTIMENT_WEIGHT] else [])

/-- `overall_score = sum(scores) / len(scores)` -/
def overallScore (a : MarketAnalysis) : ℚ :=
  sumList (ruleScores a) / (ruleScores a).length

/-- `confidence = min(MAX_RULE_CONFIDENCE, abs(overall_score) +
CONFIDENCE_BOOST)` -/
def ruleConfidence (a : MarketAnalysis) : ℚ :=
  min MAX_RULE_CONFIDENCE (|overallScore a| + CONFIDENCE_BOOST)

/-- `CryptoTrader._rule_based_decision` -/
def rule_based_decision (a : MarketAnalysis) (min_confidence : ℚ) : Decision :=
  if ruleScores a = [] then .noTrade "No valid analysis data"
  else if overallScore a > RULE_BASED_BUY_THRESHOLD ∧
      ruleConfidence a ≥ min_confidence then
    .trade "buy" (ruleConfidence a)
  else if overallScore a < RULE_BASED_SELL_THRESHOLD ∧
      ruleConfidence a ≥ min_confidence then
    .trade "sell" (ruleConfidence a)
  else .noTrade "No clear signal"

/-- `CryptoTrader.make_trading_decision`: if the AI server is connected and
its call succeeds, the decision is made inside the AI branch (trade, or the
"Confidence below threshold" refusal — also hit when the action is not
buy/sell or the position-size call fails); the rule-based fallback runs only
when the AI server is not connected or its call did not succeed. -/
def make_trading_decision (ai_connected : Bool) (ai_result : AIToolResult)
    (min_confidence : ℚ) (position_result : PositionResult)
    (analysis : MarketAnalysis) : Decision :=
  if ai_connected then
    if ai_result.success then
      if ai_result.signal.confidence ≥ min_confidence ∧
          (ai_result.signal.action = "buy" ∨ ai_result.signal.action = "sell") then
        if position_result.success then
          .trade ai_result.signal.action ai_result.signal.confidence
        else .noTrade "Confidence below threshold"
      else .noTrade "Confidence below threshold"
    else rule_based_decision analysis min_confidence
  else rule_based_decision analysis min_confidence

/-- C4: with the AI server connected and a successful signal whose
confidence is below the minimum-confidence threshold, the decision engine
returns the no-trade refusal — independent of the rule-based inputs — and
the rule-based fallback is reached exactly when the AI server is absent or
its call did not succeed. -/
theorem ai_priority_short_circuit :
    (∀ (ai : AIToolResult) (mc : ℚ) (pos : PositionResult) (a : MarketAnalysis),
        ai.success = true → ai.signal.confidence < mc →
        make_trading_decision true ai mc pos a = .noTrade "Confidence below threshold") ∧
    (∀ (ai : AIToolResult) (mc : ℚ) (pos : PositionResult) (a : MarketAnalysis),
        ai.success = false →
        make_trading_decision true ai mc pos a = rule_based_decision a mc) ∧
    (∀ (ai : AIToolResult) (mc : ℚ) (pos : PositionResult) (a : MarketAnalysis),
        make_trading_decision false ai mc pos a = rule_based_decision a mc) := by
  refine ⟨?_, ?_, ?_⟩
  · intro ai mc pos a hs hc
    rw [make_trading_decision, if_pos rfl, if_pos hs,
      if_neg (fun h => absurd h.1 (not_le.mpr hc))]
  · intro ai mc pos a hs
    rw [make_trading_decision, if_pos rfl, if_neg (by rw [hs]; exact Bool.false_ne_true)]
  · intro ai mc pos a
    rw [make_trading_decision, if_neg Bool.false_ne_true]

/-- C4 witness: with technical analysis alone the rule-based score is 0.6
and would trade, but a successful AI signal with confidence 0.5 < 0.7 makes
the engine refuse. -/
theorem ai_priority_short_circuit_witness :
    make_trading_decision true ⟨true, ⟨"buy", 1 / 2⟩⟩ (7 / 10) ⟨true, 0, 0⟩
        ⟨⟨true, "bullish"⟩, ⟨false, 0⟩, ⟨false, 0⟩⟩ =
      .noTrade "Confidence below threshold" ∧
    rule_based_decision ⟨⟨true, "bullish"⟩, ⟨false, 0⟩, ⟨false, 0⟩⟩ (7 / 10) =
      .trade "buy" (8 / 10) := by
  constructor
  · exact ai_priority_short_circuit.1 ⟨true, ⟨"buy", 1 / 2⟩⟩ (7 / 10) ⟨true, 0, 0⟩
      ⟨⟨true, "bullish"⟩, ⟨false, 0⟩, ⟨false, 0⟩⟩ rfl (by norm_num)
  · have hscores : ruleScores ⟨⟨true, "bullish"⟩, ⟨false, 0⟩, ⟨false, 0⟩⟩ =
        [TECHNICAL_SIGNAL_WEIGHT] := by
      simp [ruleScores]
    have hscore : overallScore ⟨⟨true, "bullish"⟩, ⟨false, 0⟩, ⟨false, 0⟩⟩ = 6 / 10 := by
      rw [overallScore, hscores]
      norm_num [sumList, TECHNICAL_SIGNAL_WEIGHT]
    have hconf : ruleConfidence ⟨⟨true, "bullish"⟩, ⟨false, 0⟩, ⟨false, 0⟩⟩ = 8 / 10 := by
      rw [ruleConfidence, hscore]
      norm_num [MAX_RULE_CONFIDENCE, CONFIDENCE_BOOST, abs_of_nonneg, min_def]
    rw [rule_based_decision, if_neg (by rw [hscores]; exact List.cons_ne_nil _ _),
      if_pos ⟨by rw [hscore]; norm_num [RULE_BASED_BUY_THRESHOLD],
        by rw [hconf]; norm_num⟩, hconf]

end CryptoMCP
